import Mathlib

/-!
A shallow embedding of the caching subsystem of the
`alx-backend-caching_property_listing` repository:

* `properties/utils.py` — `get_all_properties` (cache-aside accessor) and
  `get_redis_cache_metrics` (metrics reporter);
* `properties/signals.py` — `invalidate_property_cache_on_save` and
  `invalidate_property_cache_on_delete` (invalidation trigger);
* `properties/views.py` — `cache_metrics` (metrics endpoint).

The Django cache is modelled as an association list from string keys to
(value, ttl) pairs; `cache.get` / `cache.set` / `cache.delete` become pure
functions on that state.  The database read `list(Property.objects.all())`
is modelled as an `Except`-valued input (it is a blocking call that either
yields the full list of rows or raises), and the number of backing-store
queries performed by a call is returned explicitly.  Python's float
arithmetic on the hit ratio is modelled by exact rational arithmetic.
-/

namespace PropertyListing

/-- Modelled from the spec: the Entity Record of §3 (the repository's
`Property` Django model, whose `models.py` is referenced but not part of the
caching sources): identifier, title, description, price (fixed-point
decimal, modelled as a rational), location, creation timestamp. -/
structure Property where
  id : Nat
  title : String
  descr : String
  price : Rat
  location : String
  created_at : Nat
deriving DecidableEq, Repr

/-- One Django cache entry: the cached value together with the timeout
(in seconds) it was stored with. -/
structure CacheEntry where
  value : List Property
  ttl : Nat
deriving DecidableEq, Repr

/-- The state of the Redis-backed Django cache: an association list from
keys to entries.  `cache.set` replaces any previous entry wholesale. -/
structure CacheState where
  entries : List (String × CacheEntry)
deriving DecidableEq, Repr

/-- `cache.get(key)` — returns the cached value, or `none` if the key is
absent (Python returns `None`). -/
def cacheGet (c : CacheState) (k : String) : Option (List Property) :=
  (c.entries.find? (fun e => e.1 = k)).map (fun e => e.2.value)

/-- Lookup of the full entry (value and stored ttl); used to state what
`cache.set` recorded, including the timeout. -/
def cacheLookup (c : CacheState) (k : String) : Option CacheEntry :=
  (c.entries.find? (fun e => e.1 = k)).map (fun e => e.2)

/-- `cache.set(key, value, timeout)` — whole-value replacement under `key`. -/
def cacheSet (c : CacheState) (k : String) (v : List Property) (t : Nat) :
    CacheState :=
  ⟨(k, ⟨v, t⟩) :: c.entries.filter (fun e => ¬ e.1 = k)⟩

/-- `cache.delete(key)` — removes the key if present; no-op otherwise. -/
def cacheDelete (c : CacheState) (k : String) : CacheState :=
  ⟨c.entries.filter (fun e => ¬ e.1 = k)⟩

/-- The key literal of `cache.get('all_properties')` in
`properties/utils.py` (`get_all_properties`, step 1). -/
def accessor_get_key : String := "all_properties"

/-- The key literal of `cache.set('all_properties', properties, 3600)` in
`properties/utils.py` (`get_all_properties`, step 3). -/
def accessor_set_key : String := "all_properties"

/-- The key literal of `cache.delete('all_properties')` in
`invalidate_property_cache_on_save` (`properties/signals.py`). -/
def save_handler_key : String := "all_properties"

/-- The key literal of `cache.delete('all_properties')` in
`invalidate_property_cache_on_delete` (`properties/signals.py`). -/
def delete_handler_key : String := "all_properties"

/-- A failure raised by the backing store (PostgreSQL) while evaluating
`list(Property.objects.all())`. -/
structure DbError where
  msg : String
deriving DecidableEq, Repr

/-- `get_all_properties()` from `properties/utils.py`.

Step 1: `properties = cache.get('all_properties')`.
If `None` (cache miss): step 2 reads the database
(`Property.objects.all()` materialised by `list(...)` — one backing-store
query, which may raise; the raise propagates and skips step 3); step 3
`cache.set('all_properties', properties, 3600)`; step 4 returns the list.
On a hit the cached value is returned as is.

The result is `(returned value or propagated error, final cache state,
number of backing-store queries performed)`. -/
def get_all_properties (c : CacheState)
    (dbRead : Except DbError (List Property)) :
    Except DbError (List Property) × CacheState × Nat :=
  match cacheGet c accessor_get_key with
  | some props => (Except.ok props, c, 0)
  | none =>
      match dbRead with
      | Except.error e => (Except.error e, c, 1)
      | Except.ok props =>
          (Except.ok props, cacheSet c accessor_set_key props 3600, 1)

/-- `invalidate_property_cache_on_save` from `properties/signals.py`:
runs after any `Property.save()` (create or update) and deletes the cached
list unconditionally; the saved instance and `created` are not inspected. -/
def invalidate_property_cache_on_save (c : CacheState)
    (inst : Property) (created : Bool) : CacheState :=
  cacheDelete c save_handler_key

/-- `invalidate_property_cache_on_delete` from `properties/signals.py`:
runs after any `Property.delete()` and deletes the cached list
unconditionally; the deleted instance is not inspected. -/
def invalidate_property_cache_on_delete (c : CacheState)
    (inst : Property) : CacheState :=
  cacheDelete c delete_handler_key

/-- A failure raised while talking to the Redis backend
(`get_redis_connection` or `redis_client.info()`): connection error,
protocol error, or any other exception caught by the `except` clause. -/
structure RedisError where
  msg : String
deriving DecidableEq, Repr

/-- The part of the dictionary returned by `redis_client.info()` that
`get_redis_cache_metrics` reads; each counter may be absent from the
dictionary, in which case `info.get(..., 0)` defaults it to 0. -/
structure RedisInfo where
  keyspace_hits : Option Nat
  keyspace_misses : Option Nat
deriving DecidableEq, Repr

/-- The metrics dictionary built in step 5 of `get_redis_cache_metrics`
(`properties/utils.py`).  Python's float division and multiplication are
modelled by exact rational arithmetic. -/
structure CacheMetrics where
  hits : Nat
  misses : Nat
  total_requests : Nat
  hit_ratio : Rat
  hit_ratio_percent : Rat
deriving DecidableEq, Repr

/-- `get_redis_cache_metrics()` from `properties/utils.py`.

The whole body runs inside `try`: if the connection (or the `INFO` call)
raises, the `except` clause returns `None`.  Otherwise
`hits = info.get('keyspace_hits', 0)`, `misses = info.get('keyspace_misses', 0)`,
`total_requests = hits + misses`, `hit_ratio = hits / total_requests` when
`total_requests > 0` else `0.0`, and the metrics dictionary also carries
`hit_ratio_percent = hit_ratio * 100`. -/
def get_redis_cache_metrics (conn : Except RedisError RedisInfo) :
    Option CacheMetrics :=
  match conn with
  | Except.error _ => none
  | Except.ok info =>
      let hits := info.keyspace_hits.getD 0
      let misses := info.keyspace_misses.getD 0
      let total_requests := hits + misses
      let r : Rat :=
        if total_requests > 0 then (hits : Rat) / (total_requests : Rat)
        else 0
      some { hits := hits, misses := misses, total_requests := total_requests,
             hit_ratio := r, hit_ratio_percent := r * 100 }

/-- The chained conditional expression computing `'performance'` in the
`interpretation` block of `cache_metrics` (`properties/views.py`), with the
float thresholds 0.9 / 0.7 / 0.5 as exact rationals. -/
def performance_of (r : Rat) : String :=
  if r ≥ 9/10 then "excellent"
  else if r ≥ 7/10 then "good"
  else if r ≥ 5/10 then "average"
  else "poor"

/-- The conditional expression computing `'recommendation'` in the
`interpretation` block of `cache_metrics` (`properties/views.py`). -/
def recommendation_of (r : Rat) : String :=
  if r ≥ 7/10 then "Cache is working well!"
  else "Consider optimizing cache strategy"

/-- The JSON responses `cache_metrics` can produce: the 500 error payload
with its `error` and `status` fields, or the success payload carrying the
metrics values, the interpretation strings and `status = "success"`.
(The view renders the two ratios as formatted strings; the numeric values
they print are kept here.) -/
inductive MetricsResponse where
  | errorResp (error status : String) (httpStatus : Nat)
  | success (hits misses total_requests : Nat)
      ( hit_ratio hit_ratio_percent : Rat)
      (performance recommendation status : String)
deriving DecidableEq, Repr

/-- `cache_metrics(request)` from `properties/views.py`: calls
`get_redis_cache_metrics()`; on `None` returns the structured error payload
with HTTP status 500, otherwise the metrics payload plus the
`interpretation` block and `status = 'success'`. -/
def cache_metrics (conn : Except RedisError RedisInfo) : MetricsResponse :=
  match get_redis_cache_metrics conn with
  | none =>
      MetricsResponse.errorResp "Could not retrieve cache metrics" "error" 500
  | some m =>
      MetricsResponse.success m.hits m.misses m.total_requests
        ( CacheMetrics.hit_ratio m) ( CacheMetrics.hit_ratio_percent m)
        (performance_of ( CacheMetrics.hit_ratio m))
        (recommendation_of ( CacheMetrics.hit_ratio m))
        "success"

/-! ## Cache-state lemmas -/

/-- `find?` never succeeds on a list from which all matches were filtered. -/
lemma find?_filter_ne (l : List (String × CacheEntry)) (k : String) :
    (l.filter (fun e => ¬ e.1 = k)).find? (fun e => e.1 = k) = none := by
  rw [List.find?_eq_none]
  intro x hx
  have hmem := List.mem_filter.mp hx
  simpa using hmem.2

/-- Reading a key just deleted yields `none`. -/
lemma cacheGet_delete_self (c : CacheState) (k : String) :
    cacheGet (cacheDelete c k) k = none := by
  simp [cacheGet, cacheDelete, find?_filter_ne]

/-- Reading a key just written yields the written value. -/
lemma cacheGet_set_self (c : CacheState) (k : String) (v : List Property)
    (t : Nat) : cacheGet (cacheSet c k v t) k = some v := by
  simp [cacheGet, cacheSet, List.find?]

/-- Looking up a key just written yields the written entry, timeout
included. -/
lemma cacheLookup_set_self (c : CacheState) (k : String) (v : List Property)
    (t : Nat) : cacheLookup (cacheSet c k v t) k = some ⟨v, t⟩ := by
  simp [cacheLookup, cacheSet, List.find?]

/-- A concrete entity record used by the closed witness statements. -/
def sampleProperty : Property :=
  { id := 1, title := "Villa", descr := "Sea view", price := 250000,
    location := "Lagos", created_at := 1700000000 }

/-- A cache state whose `all_properties` key is populated with `v`. -/
def populatedCache (v : List Property) : CacheState :=
  ⟨[("all_properties", ⟨v, 3600⟩)]⟩

/-! ## Claims about the cache-aside accessor -/

/-- C1: on a cache miss (`cache.get 'all_properties'` returns `None`),
`get_all_properties` performs exactly one backing-store read, stores the
materialized list under `'all_properties'` with a time-to-live of exactly
3600 seconds, and returns that same list. -/
theorem miss_reads_stores_returns (c : CacheState) (db : List Property)
    (hmiss : cacheGet c accessor_get_key = none) :
    get_all_properties c (Except.ok db) =
      (Except.ok db, cacheSet c accessor_set_key db 3600, 1) ∧
    cacheLookup (get_all_properties c (Except.ok db)).2.1 accessor_get_key =
      some ⟨db, 3600⟩ := by
  have hrun : get_all_properties c (Except.ok db) =
      (Except.ok db, cacheSet c accessor_set_key db 3600, 1) := by
    unfold get_all_properties
    rw [hmiss]
  refine ⟨hrun, ?_⟩
  rw [hrun]
  exact cacheLookup_set_self c accessor_set_key db 3600

/-- Witness for C1 at the empty cache and a one-element store. -/
theorem miss_reads_stores_returns_witness :
    get_all_properties ⟨[]⟩ (Except.ok [sampleProperty]) =
      (Except.ok [sampleProperty],
        cacheSet ⟨[]⟩ accessor_set_key [sampleProperty] 3600, 1) ∧
    cacheLookup (get_all_properties ⟨[]⟩
        (Except.ok [sampleProperty])).2.1 accessor_get_key =
      some ⟨[sampleProperty], 3600⟩ :=
  miss_reads_stores_returns ⟨[]⟩ [sampleProperty] (by decide)

/-- C2: on a cache hit, `get_all_properties` returns the cached value
unchanged, performs no backing-store read (the database read count is 0),
and leaves the cache state exactly as it was. -/
theorem hit_returns_cached_no_effects (c : CacheState) (v : List Property)
    (dbRead : Except DbError (List Property))
    (hhit : cacheGet c accessor_get_key = some v) :
    get_all_properties c dbRead = (Except.ok v, c, 0) := by
  unfold get_all_properties
  rw [hhit]

/-- Witness for C2 at a populated cache. -/
theorem hit_returns_cached_no_effects_witness :
    get_all_properties (populatedCache [sampleProperty])
        (Except.ok []) =
      (Except.ok [sampleProperty], populatedCache [sampleProperty], 0) :=
  hit_returns_cached_no_effects (populatedCache [sampleProperty])
    [sampleProperty] (Except.ok []) (by decide)

/-- C5: on a cache miss whose backing-store read fails, nothing is written
to the cache (the cache state is returned unchanged) and the failure
propagates to the caller. -/
theorem db_failure_writes_nothing (c : CacheState) (e : DbError)
    (hmiss : cacheGet c accessor_get_key = none) :
    get_all_properties c (Except.error e) = (Except.error e, c, 1) := by
  unfold get_all_properties
  rw [hmiss]

/-- Witness for C5 at the empty cache. -/
theorem db_failure_writes_nothing_witness :
    get_all_properties ⟨[]⟩ (Except.error ⟨"connection refused"⟩) =
      (Except.error ⟨"connection refused"⟩, ⟨[]⟩, 1) :=
  db_failure_writes_nothing ⟨[]⟩ ⟨"connection refused"⟩ (by decide)

/-- C9: with an empty backing store, a cache-miss invocation stores the
empty list under `'all_properties'` and returns it (a normal `ok` result);
a subsequent invocation with no intervening mutation is a cache hit: it
returns the cached empty list with zero backing-store reads and leaves the
cache unchanged. -/
theorem empty_store_cached_and_hit (c : CacheState)
    (hmiss : cacheGet c accessor_get_key = none) :
    get_all_properties c (Except.ok []) =
      (Except.ok [], cacheSet c accessor_set_key [] 3600, 1) ∧
    cacheGet (cacheSet c accessor_set_key [] 3600) accessor_get_key =
      some [] ∧
    ∀ dbRead, get_all_properties (cacheSet c accessor_set_key [] 3600)
        dbRead =
      (Except.ok [], cacheSet c accessor_set_key [] 3600, 0) := by
  have hget : cacheGet (cacheSet c accessor_set_key [] 3600)
      accessor_get_key = some [] :=
    cacheGet_set_self c accessor_set_key [] 3600
  refine ⟨?_, hget, fun dbRead => ?_⟩
  · unfold get_all_properties
    rw [hmiss]
  · unfold get_all_properties
    rw [hget]

/-- Witness for C9 at the empty cache. -/
theorem empty_store_cached_and_hit_witness :
    get_all_properties ⟨[]⟩ (Except.ok []) =
      (Except.ok [], cacheSet ⟨[]⟩ accessor_set_key [] 3600, 1) ∧
    cacheGet (cacheSet ⟨[]⟩ accessor_set_key [] 3600) accessor_get_key =
      some [] ∧
    ∀ dbRead, get_all_properties (cacheSet ⟨[]⟩ accessor_set_key [] 3600)
        dbRead =
      (Except.ok [], cacheSet ⟨[]⟩ accessor_set_key [] 3600, 0) :=
  empty_store_cached_and_hit ⟨[]⟩ (by decide)

/-! ## Claims about the invalidation trigger -/

/-- C3: both signal handlers delete the `'all_properties'` key
unconditionally — for every cache state, every entity instance and every
`created` flag — so the key is absent immediately after each handler runs;
and the key string deleted by both handlers is identical to the key string
read and written by the accessor. -/
theorem handlers_invalidate_unconditionally (c : CacheState)
    (inst : Property) (created : Bool) :
    cacheGet (invalidate_property_cache_on_save c inst created)
      accessor_get_key = none ∧
    cacheGet (invalidate_property_cache_on_delete c inst)
      accessor_get_key = none ∧
    save_handler_key = accessor_get_key ∧
    delete_handler_key = accessor_get_key ∧
    accessor_set_key = accessor_get_key := by
  refine ⟨?_, ?_, rfl, rfl, rfl⟩
  · exact cacheGet_delete_self c save_handler_key
  · exact cacheGet_delete_self c delete_handler_key

/-- C4: starting from a populated cache, after a mutation event (either the
persist handler or the remove handler runs) the next
`get_all_properties` call queries the backing store exactly once and
returns the post-mutation backing-store contents, repopulating the cache
with them — never the pre-mutation cached value. -/
theorem mutation_then_read_requeries_once (c : CacheState)
    (v : List Property) (inst : Property) (created : Bool)
    (dbAfter : List Property)
    (hpop : cacheGet c accessor_get_key = some v) :
    get_all_properties (invalidate_property_cache_on_save c inst created)
        (Except.ok dbAfter) =
      (Except.ok dbAfter,
        cacheSet (invalidate_property_cache_on_save c inst created)
          accessor_set_key dbAfter 3600, 1) ∧
    get_all_properties (invalidate_property_cache_on_delete c inst)
        (Except.ok dbAfter) =
      (Except.ok dbAfter,
        cacheSet (invalidate_property_cache_on_delete c inst)
          accessor_set_key dbAfter 3600, 1) := by
  constructor
  · unfold get_all_properties
    rw [show cacheGet (invalidate_property_cache_on_save c inst created)
        accessor_get_key = none from cacheGet_delete_self c save_handler_key]
  · unfold get_all_properties
    rw [show cacheGet (invalidate_property_cache_on_delete c inst)
        accessor_get_key = none from cacheGet_delete_self c delete_handler_key]

/-- Witness for C4: a cache populated with one listing, a mutation, then a
read against a two-listing store. -/
theorem mutation_then_read_requeries_once_witness :
    get_all_properties
        (invalidate_property_cache_on_save
          (populatedCache [sampleProperty]) sampleProperty true)
        (Except.ok [sampleProperty, sampleProperty]) =
      (Except.ok [sampleProperty, sampleProperty],
        cacheSet (invalidate_property_cache_on_save
            (populatedCache [sampleProperty]) sampleProperty true)
          accessor_set_key [sampleProperty, sampleProperty] 3600, 1) ∧
    get_all_properties
        (invalidate_property_cache_on_delete
          (populatedCache [sampleProperty]) sampleProperty)
        (Except.ok [sampleProperty, sampleProperty]) =
      (Except.ok [sampleProperty, sampleProperty],
        cacheSet (invalidate_property_cache_on_delete
            (populatedCache [sampleProperty]) sampleProperty)
          accessor_set_key [sampleProperty, sampleProperty] 3600, 1) :=
  mutation_then_read_requeries_once (populatedCache [sampleProperty])
    [sampleProperty] sampleProperty true [sampleProperty, sampleProperty]
    (by decide)

/-! ## Claims about the metrics reporter -/

/-- C6: for every pair of counters read from the cache server, the metrics
snapshot has `total = hits + misses`, `hit_ratio = hits / total` when
`total > 0` and `0` when `total = 0`, and the ratio always lies in
`[0, 1]`. -/
theorem metrics_ratio_in_range ( hits misses : Nat) :
    ∃ m : CacheMetrics,
      get_redis_cache_metrics (Except.ok ⟨some hits, some misses⟩) =
        some m ∧
      CacheMetrics.hits m = hits ∧
      CacheMetrics.misses m = misses ∧
      CacheMetrics.total_requests m = hits + misses ∧
      CacheMetrics.hit_ratio m =
        (if 0 < hits + misses
         then (hits : Rat) / ((hits : Rat) + (misses : Rat)) else 0) ∧
      0 ≤ CacheMetrics.hit_ratio m ∧ CacheMetrics.hit_ratio m ≤ 1 := by
  refine ⟨_, rfl, rfl, rfl, rfl, ?_, ?_, ?_⟩
  · by_cases h : 0 < hits + misses <;> simp [ CacheMetrics.hit_ratio, h]
  · by_cases h : 0 < hits + misses <;> simp [ CacheMetrics.hit_ratio, h]
    positivity
  · by_cases h : 0 < hits + misses <;> simp [ CacheMetrics.hit_ratio, h]
    have hpos : (0 : Rat) < (hits : Rat) + (misses : Rat) := by
      exact_mod_cast h
    rw [div_le_one hpos]
    exact_mod_cast Nat.le_add_right hits misses

/-- C7: the performance tier thresholds are closed-inclusive at the lower
bound, and the positive recommendation is attached exactly when the ratio
is at least 0.70. -/
theorem tier_boundaries_closed_inclusive (r : Rat)
    (h0 : 0 ≤ r) (h1 : r ≤ 1) :
    (performance_of r = "excellent" ↔ 9/10 ≤ r) ∧
    (performance_of r = "good" ↔ 7/10 ≤ r ∧ r < 9/10) ∧
    (performance_of r = "average" ↔ 5/10 ≤ r ∧ r < 7/10) ∧
    (performance_of r = "poor" ↔ r < 5/10) ∧
    (recommendation_of r = "Cache is working well!" ↔ 7/10 ≤ r) ∧
    (recommendation_of r = "Consider optimizing cache strategy" ↔
      r < 7/10) := by
  unfold performance_of recommendation_of
  refine ⟨?_, ?_, ?_, ?_, ?_, ?_⟩ <;> split_ifs <;> simp_all <;>
    first
    | linarith
    | (constructor <;> linarith)
    | (intro hr; linarith)

/-- Witness for C7 at the ratio 1. -/
theorem tier_boundaries_closed_inclusive_witness :
    (performance_of 1 = "excellent" ↔ 9/10 ≤ (1 : Rat)) ∧
    (performance_of 1 = "good" ↔ 7/10 ≤ (1 : Rat) ∧ (1 : Rat) < 9/10) ∧
    (performance_of 1 = "average" ↔ 5/10 ≤ (1 : Rat) ∧ (1 : Rat) < 7/10) ∧
    (performance_of 1 = "poor" ↔ (1 : Rat) < 5/10) ∧
    (recommendation_of 1 = "Cache is working well!" ↔ 7/10 ≤ (1 : Rat)) ∧
    (recommendation_of 1 = "Consider optimizing cache strategy" ↔
      (1 : Rat) < 7/10) :=
  tier_boundaries_closed_inclusive 1 zero_le_one le_rfl

/-- C8: when reaching the cache backend fails, `get_redis_cache_metrics`
returns `none` rather than raising, and the `cache_metrics` endpoint turns
that into the structured error payload with an error status and HTTP
status 500. -/
theorem backend_failure_returns_error_payload (err : RedisError) :
    get_redis_cache_metrics (Except.error err) = none ∧
    cache_metrics (Except.error err) =
      MetricsResponse.errorResp "Could not retrieve cache metrics" "error"
        500 :=
  ⟨rfl, rfl⟩

/-- C10: in every successful metrics snapshot the `hit_ratio_percent`
field equals exactly 100 times the `hit_ratio` field. -/
theorem percent_is_hundred_times_ratio
    (conn : Except RedisError RedisInfo) (m : CacheMetrics)
    (h : get_redis_cache_metrics conn = some m) :
    CacheMetrics.hit_ratio_percent m = 100 * CacheMetrics.hit_ratio m := by
  cases conn with
  | error e => simp [get_redis_cache_metrics] at h
  | ok info =>
      simp only [get_redis_cache_metrics, Option.some.injEq] at h
      subst h
      dsimp [ CacheMetrics.hit_ratio, CacheMetrics.hit_ratio_percent]
      ring

/-- Witness for C10 at zero hits and zero misses. -/
theorem percent_is_hundred_times_ratio_witness :
    CacheMetrics.hit_ratio_percent ⟨0, 0, 0, 0, 0⟩ =
      100 * CacheMetrics.hit_ratio ⟨0, 0, 0, 0, 0⟩ :=
  percent_is_hundred_times_ratio (Except.ok ⟨some 0, some 0⟩)
    ⟨0, 0, 0, 0, 0⟩ (by simp [get_redis_cache_metrics])

end PropertyListing
